import Mathlib

/-!
A shallow embedding of the NS.Gifts API client (`src/nsgifts/client.py`).

The client is asynchronous Python; here every stateful method becomes a pure
function that threads an explicit `ClientState`.  Network interaction is
modelled by a trace: each loop iteration of `_request_with_retries` consumes
one `Attempt` record that says what the network did at that iteration (the
2xx body, an HTTP error status, a connection failure, or a timeout) and what
`time.time()` read during that iteration.  All `time.time()` reads inside one
loop iteration are collapsed to the iteration's single `time` field; the two
reads inside `_ensure_valid_token` (before and after acquiring the token
lock) are kept separate as `rt1`/`rt2`.  `asyncio.sleep` calls and issued
HTTP requests are observable effects, so the executor additionally returns
the list of backoff sleeps and the number of HTTP requests actually sent.
-/

namespace NSGifts

/-- Configuration supplied to `NSGiftsClient.__init__` (the fields the core
logic reads: `max_retries`, `server_error_cooldown`, `token_refresh_buffer`).
Times are `Int` seconds, as Python `int(time.time())` arithmetic is. -/
structure Config where
  maxRetries : Nat
  serverErrorCooldown : Int
  tokenRefreshBuffer : Int
deriving Repr, DecidableEq

/-- The mutable fields of `NSGiftsClient`: `token`, `token_expiry`, `email`,
`password`, `_server_error_detected`, `_server_error_timestamp`.  The aiohttp
session and the locks are not data: the session carries no state the claims
mention, and the locks only serialize critical sections (see `runCallers`). -/
structure ClientState where
  token : Option String
  tokenExpiry : Int
  email : Option String
  password : Option String
  serverErrorDetected : Bool
  serverErrorTimestamp : Int
deriving Repr, DecidableEq

/-- The part of a login/signup JSON response the client reads:
`result.get("access_token")` and `result.get("valid_thru", ...)`. -/
structure Body where
  accessToken : Option String
  validThru : Option Int
deriving Repr, DecidableEq

/-- What the network did on one issued request: a 2xx JSON body, a
`ClientResponseError` with a status, a `ClientConnectionError`, or a
timeout (the exception the source's `except` clause names). -/
inductive NetOutcome where
  | ok (body : Body)
  | httpError (status : Nat)
  | connFail
  | timeout
deriving Repr, DecidableEq

/-- The exception classes raised by `client.py` (from `nsgifts.errors`).
`serverError` carries the remaining-cooldown seconds when raised by the
circuit-breaker check and `none` when raised on a 5xx response — both raise
the same Python class `APIServerError`.  `genericError` is the bare
`APIError("Request failed after all retries.")`. -/
inductive ApiError where
  | connectionError
  | timeoutError
  | authenticationError
  | serverError (cooldownRemaining : Option Int)
  | clientError (status : Nat)
  | genericError
deriving Repr, DecidableEq

/-- The Python exception class names, for talking about which class a raised
error belongs to. -/
inductive ErrorClass where
  | APIError
  | APIConnectionError
  | APITimeoutError
  | APIAuthenticationError
  | APIServerError
  | APIClientError
deriving Repr, DecidableEq

/-- The Python class of each raised error. -/
def ApiError.cls : ApiError → ErrorClass
  | .connectionError => .APIConnectionError
  | .timeoutError => .APITimeoutError
  | .authenticationError => .APIAuthenticationError
  | .serverError _ => .APIServerError
  | .clientError _ => .APIClientError
  | .genericError => .APIError

/-- Python truthiness of an optional string (`if self.token:` is false for
both `None` and the empty string). -/
def pyTruthy : Option String → Bool
  | none => false
  | some s => !(s == ("" : String))

/-- Modelled from the spec: the endpoint catalog (`api_endpoints.py`) is not
among the sources; the spec's external-interface section gives
`login → /auth/login` as its shape.  Only the identity of the login and
signup paths matters to the client logic. -/
def loginEndpoint : String := "/auth/login"

/-- Modelled from the spec: the signup entry of the endpoint catalog. -/
def signupEndpoint : String := "/auth/signup"

/-- The condition on line 222–225 of `client.py`:
`endpoint == API_ENDPOINTS["login"] or endpoint == API_ENDPOINTS["signup"]`. -/
def isTokenEndpoint (e : String) : Bool :=
  e == loginEndpoint || e == signupEndpoint

/-- `_get_headers`: `Content-Type` always, `Authorization: Bearer <token>`
when the token is truthy. -/
def getHeaders (st : ClientState) : List (String × String) :=
  match st.token with
  | some t =>
      if t == ("" : String) then [(("Content-Type"), ("application/json"))]
      else [(("Content-Type"), ("application/json")),
            (("Authorization"), ("Bearer ") ++ t)]
  | none => [(("Content-Type"), ("application/json"))]

/-- `_is_cooldown_expired`:
`(self._server_error_timestamp + self._server_error_cooldown) <= current_time`. -/
def isCooldownExpired (cfg : Config) (now : Int) (st : ClientState) : Bool :=
  st.serverErrorTimestamp + cfg.serverErrorCooldown ≤ now

/-- `is_server_error_detected`: clears the flag when the cooldown has
expired, then returns the (possibly cleared) flag.  Returns the result and
the updated state. -/
def isServerErrorDetected (cfg : Config) (now : Int) (st : ClientState) :
    Bool × ClientState :=
  if st.serverErrorDetected && isCooldownExpired cfg now st then
    (false, { st with serverErrorDetected := false })
  else
    (st.serverErrorDetected, st)

/-- The staleness test of `_ensure_valid_token`:
`not self.token or (self.token_expiry - current_time < self._token_refresh_buffer)`. -/
def tokenStale (cfg : Config) (now : Int) (st : ClientState) : Bool :=
  !(pyTruthy st.token) || decide (st.tokenExpiry - now < cfg.tokenRefreshBuffer)

/-- The token install on a 2xx login/signup response (lines 226–229):
`self.token = result.get("access_token")`;
`self.token_expiry = result.get("valid_thru", int(time.time()) + 5400)`. -/
def installToken (now : Int) (body : Body) (st : ClientState) : ClientState :=
  { st with
      token := body.accessToken
      tokenExpiry := body.validThru.getD (now + 5400) }

/-- One loop iteration's view of the network for an auth request
(`is_auth_request=True`, so no nested refresh can occur). -/
structure Attempt where
  time : Int
  outcome : NetOutcome
deriving Repr, DecidableEq

/-- One loop iteration's view of the network for a non-auth request.
`rt1`/`rt2` are the `time.time()` reads inside `_ensure_valid_token` (before
and after the lock) should this iteration hit a 401, and `refreshTrace` is
the network trace the nested login request would consume. -/
structure MainAttempt where
  time : Int
  outcome : NetOutcome
  rt1 : Int
  rt2 : Int
  refreshTrace : List Attempt
deriving Repr, DecidableEq

deriving instance DecidableEq for Except

/-- Outcome of `_request_with_retries`: the returned body or raised error,
the final client state, the backoff sleeps performed (seconds), and how many
HTTP requests were actually sent on the wire. -/
structure RunResult where
  result : Except ApiError Body
  state : ClientState
  sleeps : List Nat
  requests : Nat
deriving Repr, DecidableEq

/-- The retry loop of `_request_with_retries` with `is_auth_request=True`:
the circuit-breaker guard is disabled by `and not is_auth_request`, and a
401 falls into the generic 4xx branch (`APIClientError`).  Arguments:
trace, attempt index, remaining loop iterations (`maxRetries - attempt`),
state, accumulated sleeps, accumulated request count. -/
def authLoop (cfg : Config) (endpoint : String) :
    List Attempt → Nat → Nat → ClientState → List Nat → Nat → RunResult
  | _, _, 0, st, sleeps, reqs => ⟨.error .genericError, st, sleeps, reqs⟩
  | [], _, _ + 1, st, sleeps, reqs => ⟨.error .genericError, st, sleeps, reqs⟩
  | a :: rest, attempt, fuel + 1, st, sleeps, reqs =>
      match a.outcome with
      | .ok body =>
          ⟨.ok body,
            if isTokenEndpoint endpoint then installToken a.time body st else st,
            sleeps, reqs + 1⟩
      | .httpError s =>
          if 400 ≤ s ∧ s < 500 then
            ⟨.error (.clientError s), st, sleeps, reqs + 1⟩
          else
            ⟨.error (.serverError none),
              { st with serverErrorDetected := true, serverErrorTimestamp := a.time },
              sleeps, reqs + 1⟩
      | .connFail =>
          if attempt < cfg.maxRetries - 1 then
            authLoop cfg endpoint rest (attempt + 1) fuel st
              (sleeps ++ [2 ^ attempt]) (reqs + 1)
          else ⟨.error .connectionError, st, sleeps, reqs + 1⟩
      | .timeout =>
          if attempt < cfg.maxRetries - 1 then
            authLoop cfg endpoint rest (attempt + 1) fuel st
              (sleeps ++ [2 ^ attempt]) (reqs + 1)
          else ⟨.error .timeoutError, st, sleeps, reqs + 1⟩

/-- `_request_with_retries(..., is_auth_request=True)`. -/
def requestAuth (cfg : Config) (endpoint : String) (trace : List Attempt)
    (st : ClientState) : RunResult :=
  authLoop cfg endpoint trace 0 cfg.maxRetries st [] 0

/-- Outcome of `_ensure_valid_token`. -/
structure EnsureResult where
  result : Except ApiError Unit
  state : ClientState
  sleeps : List Nat
  requests : Nat
deriving Repr, DecidableEq

/-- The body of the `async with self._token_lock:` block of
`_ensure_valid_token` (lines 140–161): re-check staleness at `t2` against
the state current when the lock is held; if still stale, require
credentials and issue a login request through the executor with
`is_auth_request=True`.  Any error from that nested request propagates;
state changes it made (token install, breaker trip) persist. -/
def ensureCritical (cfg : Config) (t2 : Int) (authTrace : List Attempt)
    (st : ClientState) : EnsureResult :=
  if tokenStale cfg t2 st then
    if !(pyTruthy st.email) || !(pyTruthy st.password) then
      ⟨.error .authenticationError, st, [], 0⟩
    else
      let r := requestAuth cfg loginEndpoint authTrace st
      ⟨r.result.map (fun _ => ()), r.state, r.sleeps, r.requests⟩
  else ⟨.ok (), st, [], 0⟩

/-- `_ensure_valid_token`: the unsynchronized outer staleness check at `t1`
(lines 136–139, before the lock), then — only if that saw a stale token —
the in-lock critical section. -/
def ensureValidToken (cfg : Config) (t1 t2 : Int) (authTrace : List Attempt)
    (st : ClientState) : EnsureResult :=
  if tokenStale cfg t1 st then ensureCritical cfg t2 authTrace st
  else ⟨.ok (), st, [], 0⟩

/-- The retry loop of `_request_with_retries` with `is_auth_request=False`:
the circuit-breaker guard runs first each iteration; a 401 calls
`_ensure_valid_token` and on success continues the loop (consuming the
iteration); an `APIAuthenticationError` from the refresh is re-raised as
`APIAuthenticationError`, any other refresh error propagates unchanged. -/
def mainLoop (cfg : Config) (endpoint : String) :
    List MainAttempt → Nat → Nat → ClientState → List Nat → Nat → RunResult
  | _, _, 0, st, sleeps, reqs => ⟨.error .genericError, st, sleeps, reqs⟩
  | [], _, _ + 1, st, sleeps, reqs => ⟨.error .genericError, st, sleeps, reqs⟩
  | a :: rest, attempt, fuel + 1, st, sleeps, reqs =>
      if st.serverErrorDetected && !(isCooldownExpired cfg a.time st) then
        ⟨.error (.serverError (some
            (st.serverErrorTimestamp + cfg.serverErrorCooldown - a.time))),
          st, sleeps, reqs⟩
      else
        match a.outcome with
        | .ok body =>
            ⟨.ok body,
              if isTokenEndpoint endpoint then installToken a.time body st else st,
              sleeps, reqs + 1⟩
        | .httpError s =>
            if 400 ≤ s ∧ s < 500 then
              if s = 401 then
                let r := ensureValidToken cfg a.rt1 a.rt2 a.refreshTrace st
                match r.result with
                | .ok _ =>
                    mainLoop cfg endpoint rest (attempt + 1) fuel r.state
                      (sleeps ++ r.sleeps) (reqs + 1 + r.requests)
                | .error e =>
                    ⟨.error e, r.state, sleeps ++ r.sleeps, reqs + 1 + r.requests⟩
              else ⟨.error (.clientError s), st, sleeps, reqs + 1⟩
            else
              ⟨.error (.serverError none),
                { st with serverErrorDetected := true, serverErrorTimestamp := a.time },
                sleeps, reqs + 1⟩
        | .connFail =>
            if attempt < cfg.maxRetries - 1 then
              mainLoop cfg endpoint rest (attempt + 1) fuel st
                (sleeps ++ [2 ^ attempt]) (reqs + 1)
            else ⟨.error .connectionError, st, sleeps, reqs + 1⟩
        | .timeout =>
            if attempt < cfg.maxRetries - 1 then
              mainLoop cfg endpoint rest (attempt + 1) fuel st
                (sleeps ++ [2 ^ attempt]) (reqs + 1)
            else ⟨.error .timeoutError, st, sleeps, reqs + 1⟩

/-- `_request_with_retries(..., is_auth_request=False)`. -/
def requestNonAuth (cfg : Config) (endpoint : String) (trace : List MainAttempt)
    (st : ClientState) : RunResult :=
  mainLoop cfg endpoint trace 0 cfg.maxRetries st [] 0

/-- `login(email, password)`: stores the credentials, then issues the login
request with `is_auth_request=True`. -/
def login (cfg : Config) (email password : String) (trace : List Attempt)
    (st : ClientState) : RunResult :=
  requestAuth cfg loginEndpoint trace
    { st with email := some email, password := some password }

/-- One concurrent caller of `_ensure_valid_token`: the time of its
unsynchronized pre-lock staleness check (`t1`), the time of its in-lock
re-check (`t2`), and the network trace its refresh (if any) would consume. -/
structure Caller where
  t1 : Int
  t2 : Int
  authTrace : List Attempt
deriving Repr, DecidableEq

/-- Concurrent `_ensure_valid_token` calls in one episode.  The outer
staleness check of each caller (lines 136–139) runs unsynchronized, before
anyone holds the token lock, so every caller's pre-lock check reads the
same initial state `st0`.  A caller whose pre-lock check found the token
valid returns at once and never takes the lock; the others enter the token
lock one at a time, in lock-acquisition order (the list order), each
running the in-lock re-check-then-refresh critical section against the
state `st` left by the previous lock holder.  Returns the total number of
refresh HTTP requests issued and the final state. -/
def runCallers (cfg : Config) (st0 : ClientState) :
    List Caller → ClientState → Nat × ClientState
  | [], st => (0, st)
  | c :: cs, st =>
      if tokenStale cfg c.t1 st0 then
        let r := ensureCritical cfg c.t2 c.authTrace st
        let p := runCallers cfg st0 cs r.state
        (r.requests + p.1, p.2)
      else
        runCallers cfg st0 cs st

/-! ## Helper lemmas -/

/-- The auth-request retry loop never touches the stored credentials. -/
theorem authLoop_preserves_creds (cfg : Config) (ep : String) :
    ∀ (fuel : Nat) (trace : List Attempt) (attempt : Nat) (st : ClientState)
      (sleeps : List Nat) (reqs : Nat),
      (authLoop cfg ep trace attempt fuel st sleeps reqs).state.email = st.email ∧
      (authLoop cfg ep trace attempt fuel st sleeps reqs).state.password = st.password := by
  intro fuel
  induction fuel with
  | zero =>
      intro trace attempt st sleeps reqs
      cases trace <;> simp [authLoop]
  | succ n ih =>
      intro trace attempt st sleeps reqs
      cases trace with
      | nil => simp [authLoop]
      | cons a rest =>
          cases h : a.outcome with
          | ok body =>
              simp only [authLoop, h]
              split <;> simp [installToken]
          | httpError s =>
              simp only [authLoop, h]
              split <;> simp
          | connFail =>
              simp only [authLoop, h]
              split
              · exact ih rest (attempt + 1) st (sleeps ++ [2 ^ attempt]) (reqs + 1)
              · simp
          | timeout =>
              simp only [authLoop, h]
              split
              · exact ih rest (attempt + 1) st (sleeps ++ [2 ^ attempt]) (reqs + 1)
              · simp

/-- Callers whose in-lock re-check would find the current token non-stale
issue no refresh and leave the state untouched, whether or not their
pre-lock check (against the episode's initial state `st0`) sent them into
the lock: the ones that lock are stopped by the re-check, the ones that do
not lock never reach it. -/
theorem runCallers_recheck_stops (cfg : Config) (st0 : ClientState) :
    ∀ (cs : List Caller) (st : ClientState),
      (∀ c ∈ cs, tokenStale cfg c.t2 st = false) →
      runCallers cfg st0 cs st = (0, st) := by
  intro cs
  induction cs with
  | nil => intro st _; rfl
  | cons c cs ih =>
      intro st h
      have hc : tokenStale cfg c.t2 st = false := h c (List.mem_cons_self c cs)
      have hrest : ∀ x ∈ cs, tokenStale cfg x.t2 st = false :=
        fun x hx => h x (List.mem_cons_of_mem c hx)
      by_cases hpre : tokenStale cfg c.t1 st0 = true
      · simp [runCallers, hpre, ensureCritical, hc, ih st hrest]
      · rw [Bool.not_eq_true] at hpre
        simp [runCallers, hpre, ih st hrest]

/-! ## Claim theorems -/

/-- C6: `is_server_error_detected` returns true iff the breaker is tripped
and the cooldown has not elapsed; as a side effect the tripped flag is
cleared exactly when the returned value is false after a check at or after
`tripped_at + cooldown` (the only field that can change, so the state after
the call is the input state with the flag set to the returned value). -/
theorem c6_breaker_query_iff (cfg : Config) (now : Int) (st : ClientState) :
    ((isServerErrorDetected cfg now st).1 = true ↔
      (st.serverErrorDetected = true ∧
        now < st.serverErrorTimestamp + cfg.serverErrorCooldown)) ∧
    (isServerErrorDetected cfg now st).2 =
      { st with serverErrorDetected := (isServerErrorDetected cfg now st).1 } := by
  rcases st with ⟨tok, exp, em, pw, det, ts⟩
  unfold isServerErrorDetected isCooldownExpired
  cases det with
  | false => simp
  | true =>
      by_cases h : ts + cfg.serverErrorCooldown ≤ now
      · simp [h]
      · simp [h]
        omega

/-- C10: `login` overwrites the stored credentials before issuing the login
HTTP request, so whatever the request's outcome — including every failing
trace — the final state holds the new email and password. -/
theorem c10_login_stores_credentials_first (cfg : Config) (e p : String)
    (trace : List Attempt) (st : ClientState) :
    (login cfg e p trace st).state.email = some e ∧
    (login cfg e p trace st).state.password = some p := by
  unfold login requestAuth
  have h := authLoop_preserves_creds cfg loginEndpoint cfg.maxRetries trace 0
    { st with email := some e, password := some p } [] 0
  simpa using h

/-- C4: on an HTTP response with status 500 or above (reaching the request,
i.e. the breaker guard did not fire), the executor sets
`_server_error_detected := true` with `_server_error_timestamp := now` and
fails immediately with `APIServerError`, for any remaining trace and retry
budget — a 5xx is never retried within the same call; likewise on the
auth-request path. -/
theorem c4_server_error_trips_breaker (cfg : Config) (ep : String)
    (a : MainAttempt) (b : Attempt) (rest : List MainAttempt)
    (rest2 : List Attempt) (attempt attempt2 fuel fuel2 : Nat)
    (st : ClientState) (sleeps : List Nat) (reqs : Nat) (s : Nat)
    (ha : a.outcome = NetOutcome.httpError s)
    (hb : b.outcome = NetOutcome.httpError s)
    (hs : 500 ≤ s)
    (hguard : (st.serverErrorDetected && !(isCooldownExpired cfg a.time st)) = false) :
    mainLoop cfg ep (a :: rest) attempt (fuel + 1) st sleeps reqs =
      ⟨.error (.serverError none),
        { st with serverErrorDetected := true, serverErrorTimestamp := a.time },
        sleeps, reqs + 1⟩ ∧
    authLoop cfg ep (b :: rest2) attempt2 (fuel2 + 1) st sleeps reqs =
      ⟨.error (.serverError none),
        { st with serverErrorDetected := true, serverErrorTimestamp := b.time },
        sleeps, reqs + 1⟩ := by
  constructor
  · simp only [mainLoop, ha, hguard]
    rw [if_neg (by omega : ¬(400 ≤ s ∧ s < 500))]
    simp
  · simp only [authLoop, hb]
    rw [if_neg (by omega : ¬(400 ≤ s ∧ s < 500))]

/-- C4 witness: a concrete 503 on the first attempt trips the breaker and
fails with `APIServerError` at once. -/
theorem c4_witness :
    mainLoop ⟨3, 300, 300⟩ ("/svc")
        [⟨40, NetOutcome.httpError 503, 0, 0, []⟩] 0 (2 + 1)
        ⟨some ("T"), 1000000, some ("e"), some ("p"), false, 0⟩ [] 0 =
      ⟨.error (.serverError none),
        ⟨some ("T"), 1000000, some ("e"), some ("p"), true, 40⟩, [], 0 + 1⟩ ∧
    authLoop ⟨3, 300, 300⟩ ("/svc") [⟨41, NetOutcome.httpError 503⟩] 0 (2 + 1)
        ⟨some ("T"), 1000000, some ("e"), some ("p"), false, 0⟩ [] 0 =
      ⟨.error (.serverError none),
        ⟨some ("T"), 1000000, some ("e"), some ("p"), true, 41⟩, [], 0 + 1⟩ :=
  c4_server_error_trips_breaker ⟨3, 300, 300⟩ ("/svc")
    ⟨40, NetOutcome.httpError 503, 0, 0, []⟩ ⟨41, NetOutcome.httpError 503⟩
    [] [] 0 0 2 2 ⟨some ("T"), 1000000, some ("e"), some ("p"), false, 0⟩
    [] 0 503 rfl rfl (by decide) (by decide)

/-- C7: a 2xx response to the login or signup endpoint installs the body's
`access_token` as the client token, sets the stored expiry to the
server-reported absolute `valid_thru` (defaulting to `now + 5400` when it is
absent), and returns the parsed body. -/
theorem c7_token_install_on_2xx (cfg : Config) (ep : String) (a : Attempt)
    (body : Body) (rest : List Attempt) (attempt fuel : Nat)
    (st : ClientState) (sleeps : List Nat) (reqs : Nat)
    (hep : ep = loginEndpoint ∨ ep = signupEndpoint)
    (ha : a.outcome = NetOutcome.ok body) :
    authLoop cfg ep (a :: rest) attempt (fuel + 1) st sleeps reqs =
      ⟨.ok body,
        { st with token := body.accessToken,
                  tokenExpiry := body.validThru.getD (a.time + 5400) },
        sleeps, reqs + 1⟩ := by
  have hT : isTokenEndpoint ep = true := by
    rcases hep with h | h <;> subst h <;> decide
  simp [authLoop, ha, hT, installToken]

/-- C7 witness: a concrete login 2xx with `valid_thru` present installs the
token and the absolute expiry. -/
theorem c7_witness :
    authLoop ⟨3, 300, 300⟩ loginEndpoint
        [⟨70, NetOutcome.ok ⟨some ("T"), some 9000⟩⟩] 0 (2 + 1)
        ⟨none, 0, some ("e"), some ("p"), false, 0⟩ [] 0 =
      ⟨.ok ⟨some ("T"), some 9000⟩,
        { (⟨none, 0, some ("e"), some ("p"), false, 0⟩ : ClientState) with
            token := some ("T"),
            tokenExpiry := (Option.getD (some 9000) (70 + 5400)) },
        [], 0 + 1⟩ :=
  c7_token_install_on_2xx ⟨3, 300, 300⟩ loginEndpoint
    ⟨70, NetOutcome.ok ⟨some ("T"), some 9000⟩⟩ ⟨some ("T"), some 9000⟩
    [] 0 2 ⟨none, 0, some ("e"), some ("p"), false, 0⟩ [] 0
    (Or.inl rfl) rfl

/-- C3 counterexample: a login at time 50 whose 2xx body carries
`valid_thru = 1000` installs `token_expiry = 1000`, the absolute
server-reported value — not `now + valid_thru = 1050` as the claim states. -/
theorem c3_counterexample :
    (login ⟨3, 300, 300⟩ ("e") ("p")
        [⟨50, NetOutcome.ok ⟨some ("T"), some 1000⟩⟩]
        ⟨none, 0, none, none, false, 0⟩).state.tokenExpiry = 1000 ∧
    (1000 : Int) ≠ 50 + 1000 := by
  constructor
  · rfl
  · decide

/-- C3 amended: for every successful login whose 2xx response contains a
`valid_thru` field, the installed token's expiry is the absolute
server-supplied `valid_thru` value itself (not the current time plus it),
and the parsed body is returned. -/
theorem c3_login_sets_absolute_expiry (cfg : Config) (e p : String)
    (t : Int) (tok : Option String) (vt : Int) (rest : List Attempt)
    (st : ClientState) (hm : 1 ≤ cfg.maxRetries) :
    (login cfg e p (⟨t, NetOutcome.ok ⟨tok, some vt⟩⟩ :: rest) st).state.tokenExpiry
        = vt ∧
    (login cfg e p (⟨t, NetOutcome.ok ⟨tok, some vt⟩⟩ :: rest) st).result
        = .ok ⟨tok, some vt⟩ := by
  obtain ⟨k, hk⟩ : ∃ k, cfg.maxRetries = k + 1 :=
    ⟨cfg.maxRetries - 1, by omega⟩
  unfold login requestAuth
  rw [hk]
  have hT : isTokenEndpoint loginEndpoint = true := by decide
  simp [authLoop, hT, installToken]

/-- C3 witness: concrete login whose body carries `valid_thru = 777`. -/
theorem c3_witness :
    (login ⟨3, 300, 300⟩ ("e") ("p")
        [⟨60, NetOutcome.ok ⟨some ("T"), some 777⟩⟩]
        ⟨none, 0, none, none, false, 0⟩).state.tokenExpiry = 777 ∧
    (login ⟨3, 300, 300⟩ ("e") ("p")
        [⟨60, NetOutcome.ok ⟨some ("T"), some 777⟩⟩]
        ⟨none, 0, none, none, false, 0⟩).result = .ok ⟨some ("T"), some 777⟩ :=
  c3_login_sets_absolute_expiry ⟨3, 300, 300⟩ ("e") ("p") 60 (some ("T")) 777
    [] ⟨none, 0, none, none, false, 0⟩ (by decide)

/-- C9 counterexample: a 2xx login body with no `access_token` but with
`valid_thru = 999`, received at time 100, sets the expiry to 999 — not to
`now + 5400 = 5500` as the claim states (the `now + 5400` default applies
only when `valid_thru` is absent). -/
theorem c9_counterexample :
    (requestAuth ⟨3, 300, 300⟩ loginEndpoint
        [⟨100, NetOutcome.ok ⟨none, some 999⟩⟩]
        ⟨some ("OLD"), 99999, some ("e"), some ("p"), false, 0⟩).state.tokenExpiry
      = 999 ∧
    (999 : Int) ≠ 100 + 5400 := by
  constructor
  · rfl
  · decide

/-- C9 amended: a 2xx response to the login or signup endpoint whose body
lacks `access_token` installs `None` as the token — discarding any
previously held token — and sets the expiry to the body's `valid_thru` when
present and to `now + 5400` otherwise; the resulting state then produces
headers without any `Authorization` entry. -/
theorem c9_missing_token_install (cfg : Config) (ep : String) (a : Attempt)
    (body : Body) (rest : List Attempt) (attempt fuel : Nat)
    (st : ClientState) (sleeps : List Nat) (reqs : Nat)
    (hep : ep = loginEndpoint ∨ ep = signupEndpoint)
    (ha : a.outcome = NetOutcome.ok body)
    (hat : body.accessToken = none) :
    (authLoop cfg ep (a :: rest) attempt (fuel + 1) st sleeps reqs).state.token
        = none ∧
    (authLoop cfg ep (a :: rest) attempt (fuel + 1) st sleeps reqs).state.tokenExpiry
        = body.validThru.getD (a.time + 5400) ∧
    getHeaders (authLoop cfg ep (a :: rest) attempt (fuel + 1) st sleeps reqs).state
        = [(("Content-Type"), ("application/json"))] := by
  have hT : isTokenEndpoint ep = true := by
    rcases hep with h | h <;> subst h <;> decide
  simp [authLoop, ha, hT, installToken, hat, getHeaders]

/-- C9 witness: concrete 2xx login body with neither `access_token` nor
`valid_thru`, received at time 100: token `None`, expiry `5500`, no
`Authorization` header. -/
theorem c9_witness :
    (authLoop ⟨3, 300, 300⟩ loginEndpoint
        [⟨100, NetOutcome.ok ⟨none, none⟩⟩] 0 (2 + 1)
        ⟨some ("OLD"), 99999, some ("e"), some ("p"), false, 0⟩ [] 0).state.token
      = none ∧
    (authLoop ⟨3, 300, 300⟩ loginEndpoint
        [⟨100, NetOutcome.ok ⟨none, none⟩⟩] 0 (2 + 1)
        ⟨some ("OLD"), 99999, some ("e"), some ("p"), false, 0⟩ [] 0).state.tokenExpiry
      = Option.getD none (100 + 5400) ∧
    getHeaders (authLoop ⟨3, 300, 300⟩ loginEndpoint
        [⟨100, NetOutcome.ok ⟨none, none⟩⟩] 0 (2 + 1)
        ⟨some ("OLD"), 99999, some ("e"), some ("p"), false, 0⟩ [] 0).state
      = [(("Content-Type"), ("application/json"))] :=
  c9_missing_token_install ⟨3, 300, 300⟩ loginEndpoint
    ⟨100, NetOutcome.ok ⟨none, none⟩⟩ ⟨none, none⟩ [] 0 2
    ⟨some ("OLD"), 99999, some ("e"), some ("p"), false, 0⟩ [] 0
    (Or.inl rfl) rfl rfl

/-- C2 counterexample: with the breaker tripped at 1000 (cooldown 300) a
call at time 1100 fails with `APIServerError` carrying the remaining 200
seconds, and a 5xx response also raises `APIServerError` — the same Python
exception class, so the breaker-open failure is NOT an error kind distinct
from `ServerError`. -/
theorem c2_counterexample :
    (requestNonAuth ⟨3, 300, 300⟩ ("/svc")
        [⟨1100, NetOutcome.ok ⟨none, none⟩, 0, 0, []⟩]
        ⟨some ("T"), 1000000, some ("e"), some ("p"), true, 1000⟩).result
      = .error (.serverError (some 200)) ∧
    (requestNonAuth ⟨3, 300, 300⟩ ("/svc2")
        [⟨10, NetOutcome.httpError 503, 0, 0, []⟩]
        ⟨some ("T"), 1000000, some ("e"), some ("p"), false, 0⟩).result
      = .error (.serverError none) ∧
    ApiError.cls (.serverError (some 200)) = ApiError.cls (.serverError none) := by
  refine ⟨rfl, rfl, rfl⟩

/-- C2 amended: when the circuit breaker is tripped and the cooldown has
not elapsed, a non-auth call fails immediately with `APIServerError`
carrying the remaining cooldown seconds — the same error class
`APIServerError` as a 5xx `ServerError`, not a distinct kind; no network
request is issued (`requests = 0`), no retry is consumed and no sleep is
performed, for any remaining trace; an auth request bypasses the check and
its network call proceeds despite the tripped breaker. -/
theorem c2_breaker_open_fails_fast (cfg : Config) (ep ep2 : String)
    (a : MainAttempt) (rest : List MainAttempt) (st : ClientState)
    (t : Int) (b : Body) (rest2 : List Attempt)
    (hm : 1 ≤ cfg.maxRetries)
    (hdet : st.serverErrorDetected = true)
    (hcd : a.time < st.serverErrorTimestamp + cfg.serverErrorCooldown) :
    requestNonAuth cfg ep (a :: rest) st =
      ⟨.error (.serverError (some
          (st.serverErrorTimestamp + cfg.serverErrorCooldown - a.time))),
        st, [], 0⟩ ∧
    ApiError.cls (.serverError (some
        (st.serverErrorTimestamp + cfg.serverErrorCooldown - a.time)))
      = ApiError.cls (.serverError none) ∧
    requestAuth cfg ep2 (⟨t, NetOutcome.ok b⟩ :: rest2) st =
      ⟨.ok b, if isTokenEndpoint ep2 then installToken t b st else st, [], 1⟩ := by
  obtain ⟨k, hk⟩ : ∃ k, cfg.maxRetries = k + 1 :=
    ⟨cfg.maxRetries - 1, by omega⟩
  have hexp : isCooldownExpired cfg a.time st = false := by
    unfold isCooldownExpired
    simp
    omega
  refine ⟨?_, rfl, ?_⟩
  · unfold requestNonAuth
    rw [hk]
    simp [mainLoop, hdet, hexp]
  · unfold requestAuth
    rw [hk]
    simp [authLoop]

/-- C2 witness: breaker tripped at 1000, cooldown 300, call at 1100. -/
theorem c2_witness :
    requestNonAuth ⟨3, 300, 300⟩ ("/svc")
        [⟨1100, NetOutcome.ok ⟨none, none⟩, 0, 0, []⟩]
        ⟨some ("T"), 1000000, some ("e"), some ("p"), true, 1000⟩ =
      ⟨.error (.serverError (some (1000 + 300 - 1100))),
        ⟨some ("T"), 1000000, some ("e"), some ("p"), true, 1000⟩, [], 0⟩ ∧
    ApiError.cls (.serverError (some (1000 + 300 - 1100)))
      = ApiError.cls (.serverError none) ∧
    requestAuth ⟨3, 300, 300⟩ ("/svc2")
        [⟨1100, NetOutcome.ok ⟨none, none⟩⟩]
        ⟨some ("T"), 1000000, some ("e"), some ("p"), true, 1000⟩ =
      ⟨.ok ⟨none, none⟩,
        if isTokenEndpoint ("/svc2") then
          installToken 1100 ⟨none, none⟩
            ⟨some ("T"), 1000000, some ("e"), some ("p"), true, 1000⟩
        else ⟨some ("T"), 1000000, some ("e"), some ("p"), true, 1000⟩,
        [], 1⟩ :=
  c2_breaker_open_fails_fast ⟨3, 300, 300⟩ ("/svc") ("/svc2")
    ⟨1100, NetOutcome.ok ⟨none, none⟩, 0, 0, []⟩ []
    ⟨some ("T"), 1000000, some ("e"), some ("p"), true, 1000⟩
    1100 ⟨none, none⟩ [] (by decide) rfl (by decide)

/-- The successive backoff durations `2 ^ 0, 2 ^ 1, …` are strictly
increasing. -/
theorem chain_pow_two (n : Nat) :
    List.Chain' (fun x y => x < y) ((List.range n).map (fun i => 2 ^ i)) := by
  apply List.Pairwise.chain'
  apply List.Pairwise.map (fun i => 2 ^ i)
    (fun a b h => Nat.pow_lt_pow_right (by omega) h)
  exact List.pairwise_lt_range n

/-- A run of the non-auth retry loop whose every iteration hits a connection
failure or a timeout: the loop sleeps `2 ^ attempt` before each retry,
issues one request per iteration, leaves the state unchanged and finally
raises the error matching the last attempt's failure kind. -/
theorem mainLoop_transient (cfg : Config) (ep : String) :
    ∀ (fuel : Nat) (trace : List MainAttempt) (attempt : Nat)
      (st : ClientState) (sleeps : List Nat) (reqs : Nat),
      trace.length = fuel →
      1 ≤ fuel →
      attempt + fuel = cfg.maxRetries →
      st.serverErrorDetected = false →
      (∀ a ∈ trace, a.outcome = NetOutcome.connFail ∨
        a.outcome = NetOutcome.timeout) →
      ∀ hne : trace ≠ [],
      mainLoop cfg ep trace attempt fuel st sleeps reqs =
        ⟨.error (if (trace.getLast hne).outcome = NetOutcome.connFail then
            .connectionError else .timeoutError),
          st, sleeps ++ (List.range' attempt (fuel - 1)).map (fun i => 2 ^ i),
          reqs + fuel⟩ := by
  intro fuel
  induction fuel with
  | zero =>
      intro trace attempt st sleeps reqs _ hfuel
      omega
  | succ n ih =>
      intro trace attempt st sleeps reqs hlen _ hsum hdet htr hne
      cases trace with
      | nil => exact absurd rfl hne
      | cons a rest =>
          have hguard :
              (st.serverErrorDetected && !(isCooldownExpired cfg a.time st)) = false := by
            simp [hdet]
          have hrest : rest.length = n := by simpa using hlen
          rcases htr a (List.mem_cons_self a rest) with hA | hA
          case inl =>
            cases n with
            | zero =>
                have hre : rest = [] := List.length_eq_zero.mp hrest
                subst hre
                have hatt : ¬ (attempt < cfg.maxRetries - 1) := by omega
                simp [mainLoop, hguard, hA, hatt]
            | succ m =>
                have hrne : rest ≠ [] := by
                  intro h
                  rw [h] at hrest
                  simp at hrest
                have hatt : attempt < cfg.maxRetries - 1 := by omega
                have hrec := ih rest (attempt + 1) st (sleeps ++ [2 ^ attempt])
                  (reqs + 1) hrest (by omega) (by omega) hdet
                  (fun x hx => htr x (List.mem_cons_of_mem a hx)) hrne
                simp only [mainLoop, hguard, hA, Bool.false_eq_true, if_false,
                  if_pos hatt]
                rw [hrec]
                rw [List.getLast_cons hrne]
                simp [List.range'_succ, List.append_assoc]
                omega
          case inr =>
            cases n with
            | zero =>
                have hre : rest = [] := List.length_eq_zero.mp hrest
                subst hre
                have hatt : ¬ (attempt < cfg.maxRetries - 1) := by omega
                have hAc : a.outcome ≠ NetOutcome.connFail := by
                  rw [hA]
                  intro h
                  cases h
                simp [mainLoop, hguard, hA, hatt]
            | succ m =>
                have hrne : rest ≠ [] := by
                  intro h
                  rw [h] at hrest
                  simp at hrest
                have hatt : attempt < cfg.maxRetries - 1 := by omega
                have hrec := ih rest (attempt + 1) st (sleeps ++ [2 ^ attempt])
                  (reqs + 1) hrest (by omega) (by omega) hdet
                  (fun x hx => htr x (List.mem_cons_of_mem a hx)) hrne
                simp only [mainLoop, hguard, hA, Bool.false_eq_true, if_false,
                  if_pos hatt]
                rw [hrec]
                rw [List.getLast_cons hrne]
                simp [List.range'_succ, List.append_assoc]
                omega

/-- C5: a call whose every attempt hits a connection failure or timeout
retries `max_retries - 1` additional times, sleeping `1 * 2 ^ attempt`
seconds before each retry (1s, 2s, 4s, …, strictly increasing), and fails
with `APIConnectionError` when the failure on the last attempt was a
connection failure and with `APITimeoutError` when it was a timeout. -/
theorem c5_transient_retry_backoff (cfg : Config) (ep : String)
    (trace : List MainAttempt) (st : ClientState)
    (hm : 1 ≤ cfg.maxRetries) (hlen : trace.length = cfg.maxRetries)
    (hdet : st.serverErrorDetected = false)
    (htr : ∀ a ∈ trace, a.outcome = NetOutcome.connFail ∨
      a.outcome = NetOutcome.timeout)
    (hne : trace ≠ []) :
    requestNonAuth cfg ep trace st =
      ⟨.error (if (trace.getLast hne).outcome = NetOutcome.connFail then
          .connectionError else .timeoutError),
        st, (List.range (cfg.maxRetries - 1)).map (fun i => 2 ^ i),
        cfg.maxRetries⟩ ∧
    List.Chain' (fun x y => x < y) (requestNonAuth cfg ep trace st).sleeps := by
  have h := mainLoop_transient cfg ep cfg.maxRetries trace 0 st [] 0 hlen hm
    (by omega) hdet htr hne
  unfold requestNonAuth
  rw [h]
  refine ⟨by simp [List.range_eq_range'], ?_⟩
  have hc := chain_pow_two (cfg.maxRetries - 1)
  simpa [List.range_eq_range'] using hc

/-- C5 witness: three attempts failing connection, connection, timeout with
`max_retries = 3`: sleeps 1s then 2s, then `APITimeoutError`. -/
theorem c5_witness :
    requestNonAuth ⟨3, 300, 300⟩ ("/svc")
        [⟨1, NetOutcome.connFail, 0, 0, []⟩, ⟨2, NetOutcome.connFail, 0, 0, []⟩,
         ⟨3, NetOutcome.timeout, 0, 0, []⟩]
        ⟨none, 0, some ("e"), some ("p"), false, 0⟩ =
      ⟨.error .timeoutError, ⟨none, 0, some ("e"), some ("p"), false, 0⟩,
        [1, 2], 3⟩ ∧
    List.Chain' (fun x y => x < y)
      (requestNonAuth ⟨3, 300, 300⟩ ("/svc")
        [⟨1, NetOutcome.connFail, 0, 0, []⟩, ⟨2, NetOutcome.connFail, 0, 0, []⟩,
         ⟨3, NetOutcome.timeout, 0, 0, []⟩]
        ⟨none, 0, some ("e"), some ("p"), false, 0⟩).sleeps := by
  have h := c5_transient_retry_backoff ⟨3, 300, 300⟩ ("/svc")
    [⟨1, NetOutcome.connFail, 0, 0, []⟩, ⟨2, NetOutcome.connFail, 0, 0, []⟩,
     ⟨3, NetOutcome.timeout, 0, 0, []⟩]
    ⟨none, 0, some ("e"), some ("p"), false, 0⟩
    (by decide) (by decide) rfl (by decide) (by decide)
  exact ⟨h.1.trans (by decide), h.2⟩

/-- A run of the non-auth retry loop whose every iteration answers 401 while
the stored token never looks stale: each 401 calls `_ensure_valid_token`,
which finds the token valid and refreshes nothing, and the loop `continue`s,
consuming one iteration of the budget per 401. -/
theorem mainLoop_all401_fresh (cfg : Config) (ep : String) :
    ∀ (fuel : Nat) (trace : List MainAttempt) (attempt : Nat)
      (st : ClientState) (sleeps : List Nat) (reqs : Nat),
      trace.length = fuel →
      st.serverErrorDetected = false →
      (∀ a ∈ trace, a.outcome = NetOutcome.httpError 401) →
      (∀ a ∈ trace, tokenStale cfg a.rt1 st = false) →
      mainLoop cfg ep trace attempt fuel st sleeps reqs =
        ⟨.error .genericError, st, sleeps, reqs + fuel⟩ := by
  intro fuel
  induction fuel with
  | zero =>
      intro trace attempt st sleeps reqs hlen _ _ _
      have : trace = [] := List.length_eq_zero.mp hlen
      subst this
      simp [mainLoop]
  | succ n ih =>
      intro trace attempt st sleeps reqs hlen hdet h401 hfresh
      cases trace with
      | nil => simp at hlen
      | cons a rest =>
          have hguard :
              (st.serverErrorDetected && !(isCooldownExpired cfg a.time st)) = false := by
            simp [hdet]
          have hA : a.outcome = NetOutcome.httpError 401 :=
            h401 a (List.mem_cons_self a rest)
          have hF : tokenStale cfg a.rt1 st = false :=
            hfresh a (List.mem_cons_self a rest)
          have hrest : rest.length = n := by simpa using hlen
          have hrec := ih rest (attempt + 1) st (sleeps ++ []) (reqs + 1 + 0)
            hrest hdet (fun x hx => h401 x (List.mem_cons_of_mem a hx))
            (fun x hx => hfresh x (List.mem_cons_of_mem a hx))
          simp only [mainLoop, hguard, hA, Bool.false_eq_true, if_false]
          rw [if_pos (by omega : 400 ≤ 401 ∧ 401 < 500), if_pos trivial]
          simp only [ensureValidToken, hF, Bool.false_eq_true, if_false]
          rw [hrec]
          simp
          omega

/-- C1 counterexample: client with no token but stored credentials,
`max_retries = 3`; the first 401 triggers a successful refresh installing a
long-lived token, yet the re-issued request receives 401 again — and the
call does NOT fail with `AuthenticationError`: the second and third 401s
each re-enter the refresh path (which refreshes nothing, the token being
fresh), each `continue` consumes one unit of the retry budget, and the loop
exhausts into the generic `APIError`; four HTTP requests are sent. -/
theorem c1_counterexample :
    (requestNonAuth ⟨3, 300, 300⟩ ("/svc")
        [⟨100, NetOutcome.httpError 401, 101, 102,
            [⟨103, NetOutcome.ok ⟨some ("T"), some 1000000⟩⟩]⟩,
         ⟨104, NetOutcome.httpError 401, 105, 106, []⟩,
         ⟨107, NetOutcome.httpError 401, 108, 109, []⟩]
        ⟨none, 0, some ("e"), some ("p"), false, 0⟩).result
      = .error .genericError ∧
    (requestNonAuth ⟨3, 300, 300⟩ ("/svc")
        [⟨100, NetOutcome.httpError 401, 101, 102,
            [⟨103, NetOutcome.ok ⟨some ("T"), some 1000000⟩⟩]⟩,
         ⟨104, NetOutcome.httpError 401, 105, 106, []⟩,
         ⟨107, NetOutcome.httpError 401, 108, 109, []⟩]
        ⟨none, 0, some ("e"), some ("p"), false, 0⟩).requests = 4 ∧
    (Except.error ApiError.genericError : Except ApiError Body)
      ≠ .error .authenticationError := by
  refine ⟨rfl, rfl, by decide⟩

/-- C1 amended: on a 401 with `is_auth_request=False` the executor calls
`_ensure_valid_token`, which refreshes only if the token is missing or
within the refresh buffer — when the token still looks valid no refresh is
issued at all — and on success the loop continues, consuming one unit of
the retry budget per 401; persistent 401s therefore exhaust the budget and
fail with the generic `APIError` rather than `AuthenticationError` (an
`AuthenticationError` surfaces only when the refresh itself raises one). -/
theorem c1_second401_exhausts_budget (cfg : Config) (ep : String)
    (trace : List MainAttempt) (st : ClientState)
    (hlen : trace.length = cfg.maxRetries)
    (hdet : st.serverErrorDetected = false)
    (h401 : ∀ a ∈ trace, a.outcome = NetOutcome.httpError 401)
    (hfresh : ∀ a ∈ trace, tokenStale cfg a.rt1 st = false) :
    requestNonAuth cfg ep trace st =
      ⟨.error .genericError, st, [], cfg.maxRetries⟩ := by
  have h := mainLoop_all401_fresh cfg ep cfg.maxRetries trace 0 st [] 0 hlen
    hdet h401 hfresh
  unfold requestNonAuth
  rw [h]
  simp

/-- C1 witness: a client holding a fresh token receives three consecutive
401s; no refresh fires, the budget is consumed, and the call ends in the
generic `APIError`. -/
theorem c1_witness :
    requestNonAuth ⟨3, 300, 300⟩ ("/svc")
        [⟨100, NetOutcome.httpError 401, 101, 102, []⟩,
         ⟨104, NetOutcome.httpError 401, 105, 106, []⟩,
         ⟨107, NetOutcome.httpError 401, 108, 109, []⟩]
        ⟨some ("T"), 1000000, some ("e"), some ("p"), false, 0⟩ =
      ⟨.error .genericError,
        ⟨some ("T"), 1000000, some ("e"), some ("p"), false, 0⟩, [], 3⟩ :=
  c1_second401_exhausts_budget ⟨3, 300, 300⟩ ("/svc")
    [⟨100, NetOutcome.httpError 401, 101, 102, []⟩,
     ⟨104, NetOutcome.httpError 401, 105, 106, []⟩,
     ⟨107, NetOutcome.httpError 401, 108, 109, []⟩]
    ⟨some ("T"), 1000000, some ("e"), some ("p"), false, 0⟩
    rfl rfl (by decide) (by decide)

/-- C8: in an episode where every concurrent `_ensure_valid_token` caller's
unsynchronized pre-lock check reads the shared initial state and observes a
stale (missing or expiring) token — so every caller proceeds to the token
lock — and credentials are present, and the first lock holder's refresh
response installs a token still non-stale at every later caller's in-lock
re-check time, exactly one refresh HTTP request is issued in total: the
first caller to acquire the lock refreshes, and every later caller is
stopped by the in-lock re-verification of the staleness check (the
double-checked pattern) finding the fresh token, so it refreshes nothing —
whatever refresh trace it would have consumed — and all callers finish with
the fresh token installed. -/
theorem c8_single_refresh_under_lock (cfg : Config) (st0 : ClientState)
    (c0 : Caller) (rest : List Caller) (ta : Int) (tok : String) (vt : Int)
    (hm : 1 ≤ cfg.maxRetries)
    (he : pyTruthy st0.email = true) (hp : pyTruthy st0.password = true)
    (hstale : ∀ c ∈ c0 :: rest, tokenStale cfg c.t1 st0 = true)
    (h2 : tokenStale cfg c0.t2 st0 = true)
    (htr : c0.authTrace = [⟨ta, NetOutcome.ok ⟨some tok, some vt⟩⟩])
    (hfresh : ∀ c ∈ rest, tokenStale cfg c.t2
        { st0 with token := some tok, tokenExpiry := vt } = false) :
    runCallers cfg st0 (c0 :: rest) st0 =
      (1, { st0 with token := some tok, tokenExpiry := vt }) := by
  obtain ⟨k, hk⟩ : ∃ k, cfg.maxRetries = k + 1 :=
    ⟨cfg.maxRetries - 1, by omega⟩
  have hT : isTokenEndpoint loginEndpoint = true := by decide
  have h1 : tokenStale cfg c0.t1 st0 = true :=
    hstale c0 (List.mem_cons_self c0 rest)
  have hE : ensureCritical cfg c0.t2 c0.authTrace st0 =
      ⟨.ok (), { st0 with token := some tok, tokenExpiry := vt }, [], 1⟩ := by
    unfold ensureCritical requestAuth
    rw [hk, htr]
    simp [h2, he, hp, authLoop, hT, installToken, Except.map]
  simp [runCallers, h1, hE, runCallers_recheck_stops cfg st0 rest _ hfresh]

/-- C8 witness: three concurrent callers all observe the tokenless initial
state at their pre-lock checks; the first lock holder refreshes (one HTTP
call) and the other two — although they queued for the lock with non-empty
would-be refresh traces of their own — are stopped by the in-lock re-check
and issue nothing. -/
theorem c8_witness :
    runCallers ⟨3, 300, 300⟩ ⟨none, 0, some ("e"), some ("p"), false, 0⟩
        [⟨100, 101, [⟨102, NetOutcome.ok ⟨some ("T"), some 10000⟩⟩]⟩,
         ⟨103, 104, [⟨105, NetOutcome.ok ⟨some ("U"), some 99999⟩⟩]⟩,
         ⟨105, 106, [⟨107, NetOutcome.ok ⟨some ("V"), some 99999⟩⟩]⟩]
        ⟨none, 0, some ("e"), some ("p"), false, 0⟩ =
      (1, { (⟨none, 0, some ("e"), some ("p"), false, 0⟩ : ClientState) with
              token := some ("T"), tokenExpiry := 10000 }) :=
  c8_single_refresh_under_lock ⟨3, 300, 300⟩
    ⟨none, 0, some ("e"), some ("p"), false, 0⟩
    ⟨100, 101, [⟨102, NetOutcome.ok ⟨some ("T"), some 10000⟩⟩]⟩
    [⟨103, 104, [⟨105, NetOutcome.ok ⟨some ("U"), some 99999⟩⟩]⟩,
     ⟨105, 106, [⟨107, NetOutcome.ok ⟨some ("V"), some 99999⟩⟩]⟩]
    102 ("T") 10000
    (by decide) rfl rfl (by decide) rfl rfl (by decide)

end NSGifts
